import Mathlib

/-!
Verification development for the fruit-jam-lines screensaver (`src/code.py`).

The trail engine (`LineTrail`) is embedded shallowly over `ℚ`.  The source
computes with Python floats; real-valued trigonometry enters only through
`math.cos(math.radians a)` and `math.sin(math.radians a)`, which we model as
explicit oracle parameters `cosd sind : ℚ → ℚ` (degree-argument cosine/sine).
Theorems that need trigonometric facts assume only that the oracle values lie
in `[-1, 1]`; concrete instantiations use oracles whose values agree with the
exact real cosine/sine at every angle actually evaluated.

The color pipeline (`LCh_to_sRGB`) is embedded over `ℝ`, since it uses a real
power `x ^ (1/2.4)`.
-/

namespace FruitJamLines

/-- pymod models Python's float modulo operator `a % b` for a positive
modulus `b`: the result takes the sign of the modulus, `a - b * ⌊a / b⌋`. -/
def pymod (a b : ℚ) : ℚ := a - b * ⌊a / b⌋

/-- pyRound models Python's built-in `round` applied to a real value held as a
rational: round half to even (banker's rounding), returning an integer. -/
def pyRound (q : ℚ) : ℤ :=
  let f := ⌊q⌋
  let r := q - f
  if r < 1/2 then f
  else if 1/2 < r then f + 1
  else if f % 2 = 0 then f else f + 1

/-- Module-level global `width` from `code.py` line 186:
`(width, height, color_depth) = (320, 240, 16)`. -/
def width : ℚ := 320

/-- Module-level global `height` from `code.py` line 186. -/
def height : ℚ := 240

/-- A trail entry, as stored in `self.lines`: `(x1, y1, x2, y2, color)`.
The seed entry stores the raw constructor coordinates; entries appended by
`update_trail` store integer-valued rounded coordinates. -/
abbrev Seg := ℚ × ℚ × ℚ × ℚ × ℕ

/-- The instance attributes of a `LineTrail` object, one field per attribute
assigned in `LineTrail.__init__` (`code.py` lines 26-42). -/
structure LineTrailState where
  lines : List Seg
  x1 : ℚ
  y1 : ℚ
  x2 : ℚ
  y2 : ℚ
  angle1 : ℚ
  angle2 : ℚ
  color : ℕ
  width : ℚ
  height : ℚ
  max_color : ℕ
  speed : ℚ
  max_lines : ℕ
  bg_color : ℕ

/-- `LineTrail.__init__` (`code.py` lines 26-42).  The bitmap contributes only
its dimensions and the palette only its length, so they are passed as such. -/
def LineTrail.init (x1 y1 angle1 x2 y2 angle2 : ℚ)
    (bitmap_width bitmap_height : ℚ) (palette_len : ℕ) : LineTrailState :=
  let first_color : ℕ := 1
  let first_line : Seg := (x1, y1, x2, y2, first_color)
  { lines := [first_line]
    x1 := x1, y1 := y1, x2 := x2, y2 := y2
    angle1 := angle1, angle2 := angle2
    color := first_color
    width := bitmap_width, height := bitmap_height
    max_color := palette_len - 1
    speed := 8
    max_lines := 21
    bg_color := 0 }

/-- `LineTrail.update_trail` (`code.py` lines 44-101).  `d1`, `d2` are the two
values returned by `random.uniform(-drift, drift)`; note that line 52 parses as
`self.angle1 + (random.uniform(-drift, drift) % 360)` by Python precedence.
`cosd a` / `sind a` model `math.cos(math.radians(a))` / `math.sin(math.radians(a))`.
Each `if` statement of the source that mutates both a coordinate and an angle is
transcribed as two `let` bindings testing the same condition, angle first (both
read the pre-assignment values, exactly as the source's statement block does). -/
def update_trail (cosd sind : ℚ → ℚ) (d1 d2 : ℚ) (s : LineTrailState) :
    LineTrailState :=
  let spd := s.speed
  -- the source also binds w = self.width and h = self.height (lines 47-48);
  -- both bindings are dead: every bounds check below reads the module-level
  -- globals width and height, never w or h
  let a1 := s.angle1 + pymod d1 360
  let a2 := s.angle2 + pymod d2 360
  -- compute new start point (lines 55-57)
  let x1 := s.x1 + spd * cosd a1
  let y1 := s.y1 + spd * sind a1
  -- adjust for bounce if new start point crossed an edge (lines 59-70)
  let a1 := if x1 < 0 then (if a1 ≤ 180 then 180 - a1 else 360 - (a1 - 180)) else a1
  let x1 := if x1 < 0 then 0 - x1 else x1
  let a1 := if x1 ≥ width then (if a1 ≥ 0 then 180 - a1 else 180 + (360 - a1)) else a1
  let x1 := if x1 ≥ width then width - (x1 - width) else x1
  let a1 := if y1 < 0 then (if a1 ≤ 90 then 360 - a1 else 360 - a1) else a1
  let y1 := if y1 < 0 then 0 - y1 else y1
  let a1 := if y1 ≥ height then 360 - a1 else a1
  let y1 := if y1 ≥ height then height - (y1 - height) else y1
  -- compute new end point (lines 75-77)
  let x2 := s.x2 + spd * cosd a2
  let y2 := s.y2 + spd * sind a2
  -- adjust for bounce if new end point crossed an edge (lines 79-90);
  -- the x2 < 0 branch (line 81) reads a1, exactly as in the source
  let a2 := if x2 < 0 then (if a1 ≤ 180 then 180 - a1 else 360 - (a1 - 180)) else a2
  let x2 := if x2 < 0 then 0 - x2 else x2
  let a2 := if x2 ≥ width then (if a2 ≥ 0 then 180 - a2 else 180 + (360 - a2)) else a2
  let x2 := if x2 ≥ width then width - (x2 - width) else x2
  let a2 := if y2 < 0 then (if a2 ≤ 90 then 360 - a2 else 360 - a2) else a2
  let y2 := if y2 < 0 then 0 - y2 else y2
  let a2 := if y2 ≥ height then 360 - a2 else a2
  let y2 := if y2 ≥ height then height - (y2 - height) else y2
  -- compute new color (lines 95-97)
  let c := s.color
  let c := if c = s.max_color then 1 else c + 1
  -- add new line to the list, deleting the oldest line if needed (lines 99-101)
  let new_lines := s.lines ++
    [((pyRound x1 : ℚ), (pyRound y1 : ℚ), (pyRound x2 : ℚ), (pyRound y2 : ℚ), c)]
  let new_lines := if s.max_lines < new_lines.length then new_lines.drop 1 else new_lines
  { s with x1 := x1, y1 := y1, angle1 := a1, x2 := x2, y2 := y2, angle2 := a2,
           color := c, lines := new_lines }

/-- `n` iterations of the main loop's `lines.update_trail()` call
(`code.py` line 208), with the per-frame random drift values supplied by
`drifts` and the trigonometric oracle fixed. -/
def run (cosd sind : ℚ → ℚ) (drifts : ℕ → ℚ × ℚ) (s0 : LineTrailState) :
    ℕ → LineTrailState
  | 0 => s0
  | n + 1 => update_trail cosd sind (drifts n).1 (drifts n).2
      (run cosd sind drifts s0 n)

/-- The `LineTrail` object constructed at `code.py` lines 203-204:
`LineTrail(x1=31, y1=17, angle1=23, x2=163, y2=109, angle2=71, bitmap=bitmap,
palette=palette)` with `bitmap = Bitmap(width, height, 256)` and
`palette = Palette(256)`. -/
def lines0 : LineTrailState :=
  LineTrail.init 31 17 23 163 109 71 width height 256

/-! ## Concrete states and trigonometric oracles used in the evidence -/

/-- Oracle for the C1 evidence: agrees with the exact real cosine of the
angle in degrees at every angle it is applied to (90, 180 and 270 degrees). -/
def cosdC1 : ℚ → ℚ := fun a => if a = 90 then 0 else if a = 180 then -1 else 0

/-- Oracle for the C1 evidence: exact real sine in degrees at 90, 180, 270. -/
def sindC1 : ℚ → ℚ := fun a => if a = 90 then 1 else if a = 180 then 0 else
  if a = 270 then -1 else 0

/-- The in-bounds state used to exhibit the boundary-value escape: cursor 1 at
`x1 = 312` heading `0` degrees (due east), all coordinates strictly inside the
`320 × 240` canvas. -/
def stateC2 : LineTrailState := LineTrail.init 312 100 0 100 100 90 320 240 256

/-- Oracle for the C2 counterexample: exact real cosine in degrees at the two
angles it is applied to (0 and 90 degrees). -/
def cosdC2 : ℚ → ℚ := fun a => if a = 0 then 1 else 0

/-- Oracle for the C2 counterexample: exact real sine in degrees at 0 and 90. -/
def sindC2 : ℚ → ℚ := fun a => if a = 90 then 1 else 0

/-- The state used for the C7 counterexample: cursor 1 mid-canvas heading 0. -/
def stateC7 : LineTrailState := LineTrail.init 160 120 0 100 100 90 320 240 256

/-- Oracle for the C7 counterexample, with the real cosine's value 1 at 0
degrees; at 359 degrees the real cosine is about 0.99985, and any value close
enough to 1 keeps every bounce branch untaken, so 1 is used here. -/
def cosdC7 : ℚ → ℚ := fun a => if a = 0 then 1 else if a = 359 then 1 else 0

/-- Oracle for the C7 counterexample (sine near 0 at 359 degrees, 1 at 90). -/
def sindC7 : ℚ → ℚ := fun a => if a = 90 then 1 else 0

/-! ## The color pipeline (code.py lines 111-154), embedded over ℝ -/

/-- The gamma companding lambda of `code.py` lines 148-149, applied to each
linear channel value.  Note the source computes `pow(1.055 * v, 1/2.4) - 0.055`:
the factor 1.055 sits inside the power. -/
noncomputable def compand (v : ℝ) : ℝ :=
  if v ≤ 0.0031308 then 12.92 * v else (1.055 * v) ^ ((1 : ℝ) / 2.4) - 0.055

/-- pyInt models Python's `int()` applied to a float: truncation toward zero. -/
noncomputable def pyInt (v : ℝ) : ℤ := if 0 ≤ v then ⌊v⌋ else ⌈v⌉

/-- `LCh_to_sRGB` (`code.py` lines 111-154).  The matrix product
`np.dot(M, XYZ)` is written out per row (`Rlin` from the first row of `M`,
`Glin` from the second, `Blin` from the third).  Step 5 of the source scales
by 25500 (line 152) and applies `np.flip` before building the tuple
(line 153), so the returned triple is in reversed row order: its first
component comes from the third matrix row and its last from the first row. -/
noncomputable def LCh_to_sRGB (L C h : ℝ) : ℤ × ℤ × ℤ :=
  -- 1. Convert LCh to Lab; rh = math.radians h (lines 120-122)
  let rh := h * (Real.pi / 180)
  let a := C * Real.cos rh
  let b := C * Real.sin rh
  -- 2. Convert Lab to XYZ (lines 125-139)
  let epsilon : ℝ := 0.008856
  let k : ℝ := 903.3
  let fy := (L + 16) / 116
  let fx := (a / 500) + fy
  let fz := fy - (b / 200)
  let xr := fx ^ (3 : ℕ)
  let xr := if xr ≤ epsilon then ((116 * fx) - 16) / k else xr
  let yr := ((L + 16) / 116) ^ (3 : ℕ)
  let yr := if L ≤ k * epsilon then L / k else yr
  let zr := fz ^ (3 : ℕ)
  let zr := if zr ≤ epsilon then ((116 * fz) - 16) / k else zr
  let X := xr * 0.95047
  let Y := yr * 1.00
  let Z := zr * 1.08883
  -- 3. XYZ to linear sRGB via the matrix M (lines 142-146)
  let Rlin := 3.2404542 * X + (-1.5371385) * Y + (-0.4985314) * Z
  let Glin := (-0.9692660) * X + 1.8760108 * Y + 0.0415560 * Z
  let Blin := 0.0556434 * X + (-0.2040259) * Y + 1.0572252 * Z
  -- 4. Gamma companding per channel (lines 148-150)
  let R := compand Rlin
  let G := compand Glin
  let B := compand Blin
  -- 5. scale = lambda v: min(255, max(0, v * 25500)); tuple of int over the
  -- flipped (reversed) channel array (lines 152-153)
  (pyInt (min 255 (max 0 (B * 25500))),
   pyInt (min 255 (max 0 (G * 25500))),
   pyInt (min 255 (max 0 (R * 25500))))

/-- Modelled from the claim C4 wording (spec section 4.3, step 5): the same
pipeline through gamma companding, but the final stage multiplies the
0-1.0 companded values by 255, clamps to [0, 255], truncates to integer and
returns (R, G, B) where R is the channel produced by the first matrix row. -/
noncomputable def LCh_to_sRGB_claimed (L C h : ℝ) : ℤ × ℤ × ℤ :=
  let rh := h * (Real.pi / 180)
  let a := C * Real.cos rh
  let b := C * Real.sin rh
  let epsilon : ℝ := 0.008856
  let k : ℝ := 903.3
  let fy := (L + 16) / 116
  let fx := (a / 500) + fy
  let fz := fy - (b / 200)
  let xr := fx ^ (3 : ℕ)
  let xr := if xr ≤ epsilon then ((116 * fx) - 16) / k else xr
  let yr := ((L + 16) / 116) ^ (3 : ℕ)
  let yr := if L ≤ k * epsilon then L / k else yr
  let zr := fz ^ (3 : ℕ)
  let zr := if zr ≤ epsilon then ((116 * fz) - 16) / k else zr
  let X := xr * 0.95047
  let Y := yr * 1.00
  let Z := zr * 1.08883
  let Rlin := 3.2404542 * X + (-1.5371385) * Y + (-0.4985314) * Z
  let Glin := (-0.9692660) * X + 1.8760108 * Y + 0.0415560 * Z
  let Blin := 0.0556434 * X + (-0.2040259) * Y + 1.0572252 * Z
  let R := compand Rlin
  let G := compand Glin
  let B := compand Blin
  (pyInt (min 255 (max 0 (R * 255))),
   pyInt (min 255 (max 0 (G * 255))),
   pyInt (min 255 (max 0 (B * 255))))

/-! ## Arithmetic helper lemmas -/

/-- pymod of a value already in `[0, 360)` is the value itself. -/
lemma pymod_eq_self {d : ℚ} (h0 : 0 ≤ d) (h1 : d < 360) : pymod d 360 = d := by
  unfold pymod
  rw [show ⌊d / 360⌋ = 0 from Int.floor_eq_iff.mpr (by constructor <;> push_cast <;> linarith)]
  push_cast
  ring

/-- pymod of a value in `[-360, 0)` adds `360`, as Python's `%` does for a
negative left operand and positive modulus. -/
lemma pymod_add_360 {d : ℚ} (h0 : -360 ≤ d) (h1 : d < 0) : pymod d 360 = d + 360 := by
  unfold pymod
  rw [show ⌊d / 360⌋ = -1 from Int.floor_eq_iff.mpr (by constructor <;> push_cast <;> linarith)]
  push_cast
  ring

/-- pyRound of a value between two integers lies between those integers. -/
lemma pyRound_bounds {q : ℚ} {a b : ℤ} (h1 : (a : ℚ) ≤ q) (h2 : q ≤ (b : ℚ)) :
    a ≤ pyRound q ∧ pyRound q ≤ b := by
  have hfa : a ≤ ⌊q⌋ := Int.le_floor.mpr h1
  have hfb : ⌊q⌋ ≤ b := by
    have := Int.floor_le_floor h2
    rwa [Int.floor_intCast] at this
  have hfl : (⌊q⌋ : ℚ) ≤ q := Int.floor_le q
  unfold pyRound
  dsimp only
  split_ifs with hr hr2 he
  · exact ⟨hfa, hfb⟩
  all_goals
    refine ⟨by omega, ?_⟩
    have hq2 : (⌊q⌋ : ℚ) + 1/2 ≤ q := by linarith
    have hcast : (⌊q⌋ : ℚ) < (b : ℚ) := by linarith
    have : ⌊q⌋ < b := by exact_mod_cast hcast
    omega

/-! ## Projection lemmas for update_trail -/

/-- The update keeps the instance's `max_lines` attribute. -/
lemma update_trail_max_lines (cosd sind : ℚ → ℚ) (d1 d2 : ℚ) (s : LineTrailState) :
    (update_trail cosd sind d1 d2 s).max_lines = s.max_lines := rfl

/-- The update keeps the instance's `max_color` attribute. -/
lemma update_trail_max_color (cosd sind : ℚ → ℚ) (d1 d2 : ℚ) (s : LineTrailState) :
    (update_trail cosd sind d1 d2 s).max_color = s.max_color := rfl

/-- The color advance of lines 95-97, read off the committed state. -/
lemma update_trail_color_eq (cosd sind : ℚ → ℚ) (d1 d2 : ℚ) (s : LineTrailState) :
    (update_trail cosd sind d1 d2 s).color =
      if s.color = s.max_color then 1 else s.color + 1 := rfl

/-- The list update of lines 99-101, read off the committed state: the new
entry is built from the committed (rounded) cursor coordinates and color, is
appended last, and index 0 is dropped when the capacity is exceeded. -/
lemma update_trail_lines_eq (cosd sind : ℚ → ℚ) (d1 d2 : ℚ) (s : LineTrailState) :
    (update_trail cosd sind d1 d2 s).lines =
      if s.max_lines <
          (s.lines ++ [((pyRound (update_trail cosd sind d1 d2 s).x1 : ℚ),
            (pyRound (update_trail cosd sind d1 d2 s).y1 : ℚ),
            (pyRound (update_trail cosd sind d1 d2 s).x2 : ℚ),
            (pyRound (update_trail cosd sind d1 d2 s).y2 : ℚ),
            (update_trail cosd sind d1 d2 s).color)]).length
      then (s.lines ++ [((pyRound (update_trail cosd sind d1 d2 s).x1 : ℚ),
            (pyRound (update_trail cosd sind d1 d2 s).y1 : ℚ),
            (pyRound (update_trail cosd sind d1 d2 s).x2 : ℚ),
            (pyRound (update_trail cosd sind d1 d2 s).y2 : ℚ),
            (update_trail cosd sind d1 d2 s).color)]).drop 1
      else s.lines ++ [((pyRound (update_trail cosd sind d1 d2 s).x1 : ℚ),
            (pyRound (update_trail cosd sind d1 d2 s).y1 : ℚ),
            (pyRound (update_trail cosd sind d1 d2 s).x2 : ℚ),
            (pyRound (update_trail cosd sind d1 d2 s).y2 : ℚ),
            (update_trail cosd sind d1 d2 s).color)] := rfl

/-- When the start-point candidate stays inside the canvas, no bounce branch
fires for cursor 1: the committed position is the candidate and the committed
heading is the drifted heading. -/
lemma update_trail_no_bounce1 (cosd sind : ℚ → ℚ) (d1 d2 : ℚ) (s : LineTrailState)
    (hx : 0 ≤ s.x1 + s.speed * cosd (s.angle1 + pymod d1 360))
    (hx' : s.x1 + s.speed * cosd (s.angle1 + pymod d1 360) < width)
    (hy : 0 ≤ s.y1 + s.speed * sind (s.angle1 + pymod d1 360))
    (hy' : s.y1 + s.speed * sind (s.angle1 + pymod d1 360) < height) :
    (update_trail cosd sind d1 d2 s).x1 = s.x1 + s.speed * cosd (s.angle1 + pymod d1 360) ∧
    (update_trail cosd sind d1 d2 s).y1 = s.y1 + s.speed * sind (s.angle1 + pymod d1 360) ∧
    (update_trail cosd sind d1 d2 s).angle1 = s.angle1 + pymod d1 360 := by
  simp only [update_trail, ge_iff_le, if_neg (not_lt.mpr hx), if_neg (not_le.mpr hx'),
    if_neg (not_lt.mpr hy), if_neg (not_le.mpr hy')]
  exact ⟨trivial, trivial, trivial⟩

/-- When the end-point candidate stays inside the canvas, no bounce branch
fires for cursor 2. -/
lemma update_trail_no_bounce2 (cosd sind : ℚ → ℚ) (d1 d2 : ℚ) (s : LineTrailState)
    (hx : 0 ≤ s.x2 + s.speed * cosd (s.angle2 + pymod d2 360))
    (hx' : s.x2 + s.speed * cosd (s.angle2 + pymod d2 360) < width)
    (hy : 0 ≤ s.y2 + s.speed * sind (s.angle2 + pymod d2 360))
    (hy' : s.y2 + s.speed * sind (s.angle2 + pymod d2 360) < height) :
    (update_trail cosd sind d1 d2 s).x2 = s.x2 + s.speed * cosd (s.angle2 + pymod d2 360) ∧
    (update_trail cosd sind d1 d2 s).y2 = s.y2 + s.speed * sind (s.angle2 + pymod d2 360) ∧
    (update_trail cosd sind d1 d2 s).angle2 = s.angle2 + pymod d2 360 := by
  simp only [update_trail, ge_iff_le, if_neg (not_lt.mpr hx), if_neg (not_le.mpr hx'),
    if_neg (not_lt.mpr hy), if_neg (not_le.mpr hy')]
  exact ⟨trivial, trivial, trivial⟩

/-! ## Lemmas about iterating the main loop -/

/-- The trail length changes by the line 99-101 discipline each frame. -/
lemma update_trail_length (cosd sind : ℚ → ℚ) (d1 d2 : ℚ) (s : LineTrailState) :
    (update_trail cosd sind d1 d2 s).lines.length =
      if s.max_lines < s.lines.length + 1 then s.lines.length else s.lines.length + 1 := by
  rw [update_trail_lines_eq]
  by_cases h : s.max_lines < s.lines.length + 1 <;>
    simp [h, List.length_append]

/-- Iterating the loop keeps the `max_lines` attribute. -/
lemma run_max_lines (cosd sind : ℚ → ℚ) (drifts : ℕ → ℚ × ℚ) (s0 : LineTrailState) :
    ∀ n, (run cosd sind drifts s0 n).max_lines = s0.max_lines
  | 0 => rfl
  | n + 1 => by
    rw [run, update_trail_max_lines]
    exact run_max_lines cosd sind drifts s0 n

/-- Iterating the loop keeps the `max_color` attribute. -/
lemma run_max_color (cosd sind : ℚ → ℚ) (drifts : ℕ → ℚ × ℚ) (s0 : LineTrailState) :
    ∀ n, (run cosd sind drifts s0 n).max_color = s0.max_color
  | 0 => rfl
  | n + 1 => by
    rw [run, update_trail_max_color]
    exact run_max_color cosd sind drifts s0 n

/-- From any constructed instance, after `n` frames the trail holds exactly
`min (n+1) 21` entries. -/
lemma run_init_length (cosd sind : ℚ → ℚ) (drifts : ℕ → ℚ × ℚ)
    (x1 y1 angle1 x2 y2 angle2 bw bh : ℚ) (plen : ℕ) :
    ∀ n, (run cosd sind drifts
        (LineTrail.init x1 y1 angle1 x2 y2 angle2 bw bh plen) n).lines.length =
      min (n + 1) 21 := by
  intro n
  induction n with
  | zero => rfl
  | succ n ih =>
    rw [run, update_trail_length, ih,
      run_max_lines cosd sind drifts (LineTrail.init x1 y1 angle1 x2 y2 angle2 bw bh plen) n,
      show (LineTrail.init x1 y1 angle1 x2 y2 angle2 bw bh plen).max_lines = 21 from rfl]
    split <;> omega

/-- Within capacity discipline: the updated trail is the old trail — its head
dropped exactly when the trail is full — with one new entry appended last, and
the new entry carries the committed color. -/
lemma update_trail_lines_shape (cosd sind : ℚ → ℚ) (d1 d2 : ℚ) (s : LineTrailState)
    (hlen : s.lines.length ≤ 21) (hml : s.max_lines = 21) :
    ∃ seg : Seg, (update_trail cosd sind d1 d2 s).lines =
      (if s.lines.length = 21 then s.lines.drop 1 else s.lines) ++ [seg] ∧
      seg.2.2.2.2 = (update_trail cosd sind d1 d2 s).color := by
  refine ⟨((pyRound (update_trail cosd sind d1 d2 s).x1 : ℚ),
    (pyRound (update_trail cosd sind d1 d2 s).y1 : ℚ),
    (pyRound (update_trail cosd sind d1 d2 s).x2 : ℚ),
    (pyRound (update_trail cosd sind d1 d2 s).y2 : ℚ),
    (update_trail cosd sind d1 d2 s).color), ?_, rfl⟩
  rw [update_trail_lines_eq]
  by_cases h : s.lines.length = 21
  · rw [if_pos (by simp [hml, List.length_append, h]), if_pos h,
      List.drop_append_of_le_length (by omega)]
  · rw [if_neg (by simp [hml, List.length_append]; omega), if_neg h]

/-! ## Claim C1 -/

/-- C1: the claim states that when cursor 2's candidate x crosses below 0, its
new heading is computed from cursor 2's own heading (here `180 - 180 = 0` in
both runs, since `angle2 = 180`).  The code (`code.py` line 81) instead reads
cursor 1's heading: two states identical except for `angle1` (90 versus 270,
with drift 0 and cursor 1 far from every edge) yield committed `angle2 = 90`
and `angle2 = 270` respectively — the reflected heading tracks `angle1` and
never equals the claimed value 0. -/
theorem update_trail_x2_bounce_reads_angle1 :
    (update_trail cosdC1 sindC1 0 0
        (LineTrail.init 100 100 90 4 100 180 320 240 256)).angle2 = 90 ∧
    (update_trail cosdC1 sindC1 0 0
        (LineTrail.init 100 100 270 4 100 180 320 240 256)).angle2 = 270 ∧
    (LineTrail.init 100 100 90 4 100 180 320 240 256).angle2 =
      (LineTrail.init 100 100 270 4 100 180 320 240 256).angle2 ∧
    ((90 : ℚ) ≠ 0 ∧ (270 : ℚ) ≠ 0 ∧ (90 : ℚ) ≠ 270) := by
  have hm : pymod 0 360 = 0 := pymod_eq_self le_rfl (by norm_num)
  refine ⟨?_, ?_, rfl, by norm_num⟩ <;>
    norm_num [update_trail, LineTrail.init, hm, cosdC1, sindC1, width, height]

/-! ## Claim C2 -/

/-- C2 counterexample: from an in-bounds state (all committed coordinates
satisfy `0 ≤ x < width`, `0 ≤ y < height`), one `update_trail` step whose
candidate `x1 = 312 + 8 = 320` lands exactly on the boundary value `width`
commits `x1 = width`, violating the claimed strict invariant `x1 < width`:
line 63 maps a candidate of exactly `width` to `width - (width - width) = width`. -/
theorem update_trail_boundary_hit_escapes :
    (0 ≤ stateC2.x1 ∧ stateC2.x1 < width ∧ 0 ≤ stateC2.y1 ∧ stateC2.y1 < height ∧
     0 ≤ stateC2.x2 ∧ stateC2.x2 < width ∧ 0 ≤ stateC2.y2 ∧ stateC2.y2 < height) ∧
    (update_trail cosdC2 sindC2 0 0 stateC2).x1 = width ∧
    ¬ (update_trail cosdC2 sindC2 0 0 stateC2).x1 < width := by
  have hm : pymod 0 360 = 0 := pymod_eq_self le_rfl (by norm_num)
  refine ⟨by norm_num [stateC2, LineTrail.init, width, height], ?_, ?_⟩ <;>
    norm_num [update_trail, stateC2, LineTrail.init, hm, cosdC2, sindC2, width, height]

/-- C2 amended: under the same hypotheses (speed 8, trigonometric oracle values
in `[-1, 1]`), an update from a state whose cursor coordinates lie in the
closed box `0 ≤ x ≤ width`, `0 ≤ y ≤ height` commits coordinates in the same
closed box; the strict bound of the original claim fails only on the boundary. -/
theorem update_trail_closed_box (cosd sind : ℚ → ℚ)
    (hcos : ∀ a, -1 ≤ cosd a ∧ cosd a ≤ 1) (hsin : ∀ a, -1 ≤ sind a ∧ sind a ≤ 1)
    (d1 d2 : ℚ) (s : LineTrailState) (hspd : s.speed = 8)
    (hx1l : 0 ≤ s.x1) (hx1u : s.x1 ≤ width) (hy1l : 0 ≤ s.y1) (hy1u : s.y1 ≤ height)
    (hx2l : 0 ≤ s.x2) (hx2u : s.x2 ≤ width) (hy2l : 0 ≤ s.y2) (hy2u : s.y2 ≤ height) :
    (0 ≤ (update_trail cosd sind d1 d2 s).x1 ∧ (update_trail cosd sind d1 d2 s).x1 ≤ width) ∧
    (0 ≤ (update_trail cosd sind d1 d2 s).y1 ∧ (update_trail cosd sind d1 d2 s).y1 ≤ height) ∧
    (0 ≤ (update_trail cosd sind d1 d2 s).x2 ∧ (update_trail cosd sind d1 d2 s).x2 ≤ width) ∧
    (0 ≤ (update_trail cosd sind d1 d2 s).y2 ∧ (update_trail cosd sind d1 d2 s).y2 ≤ height) := by
  rw [show width = 320 from rfl] at hx1u hx2u
  rw [show height = 240 from rfl] at hy1u hy2u
  obtain ⟨hc1l, hc1u⟩ := hcos (s.angle1 + pymod d1 360)
  obtain ⟨hs1l, hs1u⟩ := hsin (s.angle1 + pymod d1 360)
  obtain ⟨hc2l, hc2u⟩ := hcos (s.angle2 + pymod d2 360)
  obtain ⟨hs2l, hs2u⟩ := hsin (s.angle2 + pymod d2 360)
  simp only [update_trail, ge_iff_le, hspd, width, height]
  refine ⟨?_, ?_, ?_, ?_⟩ <;> dsimp only <;> split_ifs <;>
    constructor <;> linarith [hx1l, hx1u, hy1l, hy1u, hx2l, hx2u, hy2l, hy2u]

/-- Witness for the amended C2 theorem at a concrete state and oracle. -/
theorem update_trail_closed_box_witness :
    (0 ≤ (update_trail (fun _ => 1) (fun _ => 0) 0 0 stateC2).x1 ∧
      (update_trail (fun _ => 1) (fun _ => 0) 0 0 stateC2).x1 ≤ width) ∧
    (0 ≤ (update_trail (fun _ => 1) (fun _ => 0) 0 0 stateC2).y1 ∧
      (update_trail (fun _ => 1) (fun _ => 0) 0 0 stateC2).y1 ≤ height) ∧
    (0 ≤ (update_trail (fun _ => 1) (fun _ => 0) 0 0 stateC2).x2 ∧
      (update_trail (fun _ => 1) (fun _ => 0) 0 0 stateC2).x2 ≤ width) ∧
    (0 ≤ (update_trail (fun _ => 1) (fun _ => 0) 0 0 stateC2).y2 ∧
      (update_trail (fun _ => 1) (fun _ => 0) 0 0 stateC2).y2 ≤ height) :=
  update_trail_closed_box (fun _ => 1) (fun _ => 0)
    (fun _ => ⟨by norm_num, by norm_num⟩) (fun _ => ⟨by norm_num, by norm_num⟩)
    0 0 stateC2 rfl
    (by norm_num [stateC2, LineTrail.init]) (by norm_num [stateC2, LineTrail.init, width])
    (by norm_num [stateC2, LineTrail.init]) (by norm_num [stateC2, LineTrail.init, height])
    (by norm_num [stateC2, LineTrail.init]) (by norm_num [stateC2, LineTrail.init, width])
    (by norm_num [stateC2, LineTrail.init]) (by norm_num [stateC2, LineTrail.init, height])

/-! ## Claim C7 -/

/-- C7 counterexample: with drift value `d = -1` (inside `[-2, 2]`), the
effective heading of cursor 1 is not `heading + d = -1`; line 52 parses as
`angle + (d % 360)` and Python's `%` maps `-1` to `359`, so the committed
heading is `0 + 359 = 359`. -/
theorem update_trail_negative_drift_not_additive :
    ((-2 : ℚ) ≤ -1 ∧ (-1 : ℚ) ≤ 2) ∧
    stateC7.angle1 + (-1) = -1 ∧
    (update_trail cosdC7 sindC7 (-1) 0 stateC7).angle1 = 359 ∧
    ((359 : ℚ) ≠ -1) := by
  have hm : pymod (-1) 360 = 359 := by
    rw [pymod_add_360 (by norm_num) (by norm_num)]; norm_num
  have hm0 : pymod 0 360 = 0 := pymod_eq_self le_rfl (by norm_num)
  refine ⟨by norm_num, by norm_num [stateC7, LineTrail.init], ?_, by norm_num⟩
  norm_num [update_trail, stateC7, LineTrail.init, hm, hm0, cosdC7, sindC7, width, height]

/-- C7 amended: the effective (and, absent a bounce, committed) heading of
cursor 1 is `heading + (d % 360)` where `%` is Python's modulo: for drift
`d ∈ [0, 2]` this is `heading + d`, and for `d ∈ [-2, 0)` it is
`heading + d + 360`. -/
theorem update_trail_drift_is_pymod (cosd sind : ℚ → ℚ) (d1 d2 : ℚ) (s : LineTrailState)
    (hx : 0 ≤ s.x1 + s.speed * cosd (s.angle1 + pymod d1 360))
    (hx' : s.x1 + s.speed * cosd (s.angle1 + pymod d1 360) < width)
    (hy : 0 ≤ s.y1 + s.speed * sind (s.angle1 + pymod d1 360))
    (hy' : s.y1 + s.speed * sind (s.angle1 + pymod d1 360) < height) :
    (update_trail cosd sind d1 d2 s).angle1 = s.angle1 + pymod d1 360 ∧
    (0 ≤ d1 → d1 ≤ 2 → pymod d1 360 = d1) ∧
    (-2 ≤ d1 → d1 < 0 → pymod d1 360 = d1 + 360) := by
  refine ⟨(update_trail_no_bounce1 cosd sind d1 d2 s hx hx' hy hy').2.2, ?_, ?_⟩
  · intro h0 h1
    exact pymod_eq_self h0 (by linarith)
  · intro h0 h1
    exact pymod_add_360 (by linarith) h1

/-- Witness for the amended C7 theorem at a concrete state and oracle. -/
theorem update_trail_drift_is_pymod_witness :
    (update_trail (fun _ => 1) (fun _ => 0) (-1) 0 stateC7).angle1 =
      stateC7.angle1 + pymod (-1) 360 ∧
    (0 ≤ (-1 : ℚ) → (-1 : ℚ) ≤ 2 → pymod (-1) 360 = -1) ∧
    (-2 ≤ (-1 : ℚ) → (-1 : ℚ) < 0 → pymod (-1) 360 = -1 + 360) := by
  have hm : pymod (-1) 360 = 359 := by
    rw [pymod_add_360 (by norm_num) (by norm_num)]; norm_num
  exact update_trail_drift_is_pymod (fun _ => 1) (fun _ => 0) (-1) 0 stateC7
    (by norm_num [stateC7, LineTrail.init, hm])
    (by norm_num [stateC7, LineTrail.init, hm, width])
    (by norm_num [stateC7, LineTrail.init, hm])
    (by norm_num [stateC7, LineTrail.init, hm, height])

/-! ## Claim C5 -/

/-- C5: from the program's initial trail, for every drift sequence and every
trigonometric oracle, (a) after `n ≥ 21` frames the trail length is exactly
21 = `max_lines`, (b) the length never exceeds 21, and (c) each frame appends
the new entry last, dropping the entry at index 0 exactly when the trail is
full. -/
theorem run_trail_bounded (cosd sind : ℚ → ℚ) (drifts : ℕ → ℚ × ℚ) :
    (∀ n, 21 ≤ n → (run cosd sind drifts lines0 n).lines.length = 21) ∧
    (∀ n, (run cosd sind drifts lines0 n).lines.length ≤ 21) ∧
    (∀ n, ∃ seg : Seg,
      (run cosd sind drifts lines0 (n + 1)).lines =
        (if (run cosd sind drifts lines0 n).lines.length = 21
          then (run cosd sind drifts lines0 n).lines.drop 1
          else (run cosd sind drifts lines0 n).lines) ++ [seg]) := by
  have hlen : ∀ n, (run cosd sind drifts lines0 n).lines.length = min (n + 1) 21 :=
    fun n => run_init_length cosd sind drifts 31 17 23 163 109 71 width height 256 n
  refine ⟨fun n hn => by rw [hlen]; omega, fun n => by rw [hlen]; omega, fun n => ?_⟩
  obtain ⟨seg, hseg, -⟩ := update_trail_lines_shape cosd sind (drifts n).1 (drifts n).2
    (run cosd sind drifts lines0 n) (by rw [hlen]; omega)
    (by rw [run_max_lines]; rfl)
  exact ⟨seg, by rw [run, hseg]⟩

/-- Witness for C5 at 21 frames with a concrete oracle and drift sequence. -/
theorem run_trail_bounded_witness :
    (run (fun _ => 0) (fun _ => 0) (fun _ => (0, 0)) lines0 21).lines.length = 21 :=
  (run_trail_bounded (fun _ => 0) (fun _ => 0) (fun _ => (0, 0))).1 21 (by norm_num)

/-! ## Claim C6 -/

/-- C6: from the program's initial state (palette of 256 entries, so
`max_color = 255`), the committed color after `n` frames is `n % 255 + 1` —
the cycle `1, 2, ..., 255, 1, 2, ...` with no skips or repeats, for every
drift sequence and oracle — and every entry ever stored in the trail has a
color index in `[1, 255]`; index 0 is never used. -/
theorem run_color_cycle (cosd sind : ℚ → ℚ) (drifts : ℕ → ℚ × ℚ) :
    (∀ n, (run cosd sind drifts lines0 n).color = n % 255 + 1) ∧
    (∀ n, ∀ seg ∈ (run cosd sind drifts lines0 n).lines,
      1 ≤ seg.2.2.2.2 ∧ seg.2.2.2.2 ≤ 255) := by
  have hmc : ∀ n, (run cosd sind drifts lines0 n).max_color = 255 := fun n => by
    rw [run_max_color]; rfl
  have hlen : ∀ n, (run cosd sind drifts lines0 n).lines.length = min (n + 1) 21 :=
    fun n => run_init_length cosd sind drifts 31 17 23 163 109 71 width height 256 n
  have hcol : ∀ n, (run cosd sind drifts lines0 n).color = n % 255 + 1 := by
    intro n
    induction n with
    | zero => rfl
    | succ n ih =>
      rw [run, update_trail_color_eq, ih, hmc n]
      split_ifs with h <;> omega
  refine ⟨hcol, ?_⟩
  intro n
  induction n with
  | zero =>
    intro seg hseg
    rw [show (run cosd sind drifts lines0 0).lines =
      [((31 : ℚ), (17 : ℚ), (163 : ℚ), (109 : ℚ), (1 : ℕ))] from rfl] at hseg
    rw [List.mem_singleton] at hseg
    subst hseg
    exact ⟨le_rfl, by norm_num⟩
  | succ n ih =>
    intro seg hseg
    obtain ⟨segn, hshape, hcoln⟩ := update_trail_lines_shape cosd sind
      (drifts n).1 (drifts n).2 (run cosd sind drifts lines0 n)
      (by rw [hlen]; omega) (by rw [run_max_lines]; rfl)
    rw [run, hshape] at hseg
    rcases List.mem_append.mp hseg with h | h
    · refine ih seg ?_
      by_cases h21 : (run cosd sind drifts lines0 n).lines.length = 21
      · rw [if_pos h21] at h; exact List.mem_of_mem_drop h
      · rwa [if_neg h21] at h
    · rw [List.mem_singleton] at h
      subst h
      have hc := hcol (n + 1)
      rw [run] at hc
      rw [hcoln, hc]
      constructor <;> omega

/-- Witness for C6: the seed entry of the program's trail has color 1, inside
the claimed range. -/
theorem run_color_cycle_witness :
    1 ≤ ((31 : ℚ), (17 : ℚ), (163 : ℚ), (109 : ℚ), (1 : ℕ)).2.2.2.2 ∧
    ((31 : ℚ), (17 : ℚ), (163 : ℚ), (109 : ℚ), (1 : ℕ)).2.2.2.2 ≤ 255 :=
  (run_color_cycle (fun _ => 0) (fun _ => 0) (fun _ => (0, 0))).2 0
    ((31 : ℚ), (17 : ℚ), (163 : ℚ), (109 : ℚ), (1 : ℕ)) (List.mem_singleton.mpr rfl)

/-! ## Claim C8 -/

/-- C8: one `update_trail` from the program's documented initial state
`(x1=31, y1=17, angle1=23, x2=163, y2=109, angle2=71)`, with drift 0 on the
`320 × 240` canvas at speed 8, appends a segment whose rounded endpoints both
lie strictly inside the canvas and whose color index is 2 — for every
trigonometric oracle whose values lie in `[-1, 1]` (in particular the real
cosine and sine). -/
theorem first_update_scenario (cosd sind : ℚ → ℚ)
    (h1 : -1 ≤ cosd 23) (h2 : cosd 23 ≤ 1) (h3 : -1 ≤ sind 23) (h4 : sind 23 ≤ 1)
    (h5 : -1 ≤ cosd 71) (h6 : cosd 71 ≤ 1) (h7 : -1 ≤ sind 71) (h8 : sind 71 ≤ 1) :
    (update_trail cosd sind 0 0 lines0).color = 2 ∧
    ∃ r1 r2 r3 r4 : ℤ,
      (update_trail cosd sind 0 0 lines0).lines =
        [((31 : ℚ), (17 : ℚ), (163 : ℚ), (109 : ℚ), (1 : ℕ)),
         ((r1 : ℚ), (r2 : ℚ), (r3 : ℚ), (r4 : ℚ), (2 : ℕ))] ∧
      0 ≤ r1 ∧ r1 < 320 ∧ 0 ≤ r2 ∧ r2 < 240 ∧
      0 ≤ r3 ∧ r3 < 320 ∧ 0 ≤ r4 ∧ r4 < 240 := by
  have hm0 : pymod 0 360 = 0 := pymod_eq_self le_rfl (by norm_num)
  have harg1 : lines0.angle1 + pymod 0 360 = 23 := by
    rw [hm0]; norm_num [lines0, LineTrail.init]
  have harg2 : lines0.angle2 + pymod 0 360 = 71 := by
    rw [hm0]; norm_num [lines0, LineTrail.init]
  have hx1 : lines0.x1 = 31 := rfl
  have hy1 : lines0.y1 = 17 := rfl
  have hx2 : lines0.x2 = 163 := rfl
  have hy2 : lines0.y2 = 109 := rfl
  have hspd : lines0.speed = 8 := rfl
  have hw : width = (320 : ℚ) := rfl
  have hh : height = (240 : ℚ) := rfl
  obtain ⟨hx1e, hy1e, -⟩ := update_trail_no_bounce1 cosd sind 0 0 lines0
    (by rw [harg1, hx1, hspd]; linarith)
    (by rw [harg1, hx1, hspd, hw]; linarith)
    (by rw [harg1, hy1, hspd]; linarith)
    (by rw [harg1, hy1, hspd, hh]; linarith)
  obtain ⟨hx2e, hy2e, -⟩ := update_trail_no_bounce2 cosd sind 0 0 lines0
    (by rw [harg2, hx2, hspd]; linarith)
    (by rw [harg2, hx2, hspd, hw]; linarith)
    (by rw [harg2, hy2, hspd]; linarith)
    (by rw [harg2, hy2, hspd, hh]; linarith)
  rw [harg1, hx1, hspd] at hx1e
  rw [harg1, hy1, hspd] at hy1e
  rw [harg2, hx2, hspd] at hx2e
  rw [harg2, hy2, hspd] at hy2e
  have hcol : (update_trail cosd sind 0 0 lines0).color = 2 := by
    rw [update_trail_color_eq]
    norm_num [lines0, LineTrail.init]
  have hb1 := pyRound_bounds (a := 23) (b := 39)
    (q := (update_trail cosd sind 0 0 lines0).x1)
    (by rw [hx1e]; push_cast; linarith) (by rw [hx1e]; push_cast; linarith)
  have hb2 := pyRound_bounds (a := 9) (b := 25)
    (q := (update_trail cosd sind 0 0 lines0).y1)
    (by rw [hy1e]; push_cast; linarith) (by rw [hy1e]; push_cast; linarith)
  have hb3 := pyRound_bounds (a := 155) (b := 171)
    (q := (update_trail cosd sind 0 0 lines0).x2)
    (by rw [hx2e]; push_cast; linarith) (by rw [hx2e]; push_cast; linarith)
  have hb4 := pyRound_bounds (a := 101) (b := 117)
    (q := (update_trail cosd sind 0 0 lines0).y2)
    (by rw [hy2e]; push_cast; linarith) (by rw [hy2e]; push_cast; linarith)
  refine ⟨hcol, pyRound (update_trail cosd sind 0 0 lines0).x1,
    pyRound (update_trail cosd sind 0 0 lines0).y1,
    pyRound (update_trail cosd sind 0 0 lines0).x2,
    pyRound (update_trail cosd sind 0 0 lines0).y2, ?_,
    by omega, by omega, by omega, by omega, by omega, by omega, by omega, by omega⟩
  rw [update_trail_lines_eq, if_neg (by norm_num [lines0, LineTrail.init]), hcol]
  rfl

/-- Witness for C8 with the constant oracle `1/2` (all values in `[-1, 1]`). -/
theorem first_update_scenario_witness :
    (update_trail (fun _ => 1/2) (fun _ => 1/2) 0 0 lines0).color = 2 ∧
    ∃ r1 r2 r3 r4 : ℤ,
      (update_trail (fun _ => 1/2) (fun _ => 1/2) 0 0 lines0).lines =
        [((31 : ℚ), (17 : ℚ), (163 : ℚ), (109 : ℚ), (1 : ℕ)),
         ((r1 : ℚ), (r2 : ℚ), (r3 : ℚ), (r4 : ℚ), (2 : ℕ))] ∧
      0 ≤ r1 ∧ r1 < 320 ∧ 0 ≤ r2 ∧ r2 < 240 ∧
      0 ≤ r3 ∧ r3 < 320 ∧ 0 ≤ r4 ∧ r4 < 240 :=
  first_update_scenario (fun _ => 1/2) (fun _ => 1/2)
    (by norm_num) (by norm_num) (by norm_num) (by norm_num)
    (by norm_num) (by norm_num) (by norm_num) (by norm_num)

/-! ## Claim C9 -/

/-- C9: the constructor seeds the trail with a single entry carrying the raw
initial endpoint coordinates and color index 1; thereafter the trail length
after `n` frames is `min (n+1) 21`, and the first entry appended by
`update_trail` carries color index 2. -/
theorem init_seed_and_trail_growth (x1 y1 angle1 x2 y2 angle2 bw bh : ℚ)
    (cosd sind : ℚ → ℚ) (drifts : ℕ → ℚ × ℚ) :
    (LineTrail.init x1 y1 angle1 x2 y2 angle2 bw bh 256).lines =
      [(x1, y1, x2, y2, 1)] ∧
    (∀ n, (run cosd sind drifts (LineTrail.init x1 y1 angle1 x2 y2 angle2 bw bh 256)
        n).lines.length = min (n + 1) 21) ∧
    (run cosd sind drifts (LineTrail.init x1 y1 angle1 x2 y2 angle2 bw bh 256) 1).color = 2 ∧
    (∃ seg : Seg,
      (run cosd sind drifts (LineTrail.init x1 y1 angle1 x2 y2 angle2 bw bh 256) 1).lines =
        [(x1, y1, x2, y2, 1), seg] ∧ seg.2.2.2.2 = 2) := by
  have hrun1 : run cosd sind drifts (LineTrail.init x1 y1 angle1 x2 y2 angle2 bw bh 256) 1 =
      update_trail cosd sind (drifts 0).1 (drifts 0).2
        (LineTrail.init x1 y1 angle1 x2 y2 angle2 bw bh 256) := rfl
  have hcol : (run cosd sind drifts (LineTrail.init x1 y1 angle1 x2 y2 angle2 bw bh 256)
      1).color = 2 := by
    rw [hrun1, update_trail_color_eq]
    norm_num [LineTrail.init]
  refine ⟨rfl, run_init_length cosd sind drifts x1 y1 angle1 x2 y2 angle2 bw bh 256, hcol, ?_⟩
  obtain ⟨seg, hshape, hcoln⟩ := update_trail_lines_shape cosd sind (drifts 0).1 (drifts 0).2
    (LineTrail.init x1 y1 angle1 x2 y2 angle2 bw bh 256)
    (by norm_num [LineTrail.init]) rfl
  refine ⟨seg, ?_, ?_⟩
  · rw [hrun1, hshape, if_neg (by norm_num [LineTrail.init])]
    rfl
  · rw [hcoln, ← hrun1, hcol]

/-! ## Claim C10 -/

/-- C10: the bounce checks of `update_trail` compare against the module-level
globals `width` and `height`, not against the instance attributes stored from
the bitmap: two instances built from bitmaps of different dimensions, but
otherwise identical, produce identical committed cursor positions, headings,
color and trail after an update (for the same drift values and oracle). -/
theorem update_trail_ignores_instance_dims (x1 y1 angle1 x2 y2 angle2 w1 h1 w2 h2 : ℚ)
    (plen : ℕ) (cosd sind : ℚ → ℚ) (d1 d2 : ℚ) :
    (update_trail cosd sind d1 d2 (LineTrail.init x1 y1 angle1 x2 y2 angle2 w1 h1 plen)).x1 =
      (update_trail cosd sind d1 d2 (LineTrail.init x1 y1 angle1 x2 y2 angle2 w2 h2 plen)).x1 ∧
    (update_trail cosd sind d1 d2 (LineTrail.init x1 y1 angle1 x2 y2 angle2 w1 h1 plen)).y1 =
      (update_trail cosd sind d1 d2 (LineTrail.init x1 y1 angle1 x2 y2 angle2 w2 h2 plen)).y1 ∧
    (update_trail cosd sind d1 d2 (LineTrail.init x1 y1 angle1 x2 y2 angle2 w1 h1 plen)).x2 =
      (update_trail cosd sind d1 d2 (LineTrail.init x1 y1 angle1 x2 y2 angle2 w2 h2 plen)).x2 ∧
    (update_trail cosd sind d1 d2 (LineTrail.init x1 y1 angle1 x2 y2 angle2 w1 h1 plen)).y2 =
      (update_trail cosd sind d1 d2 (LineTrail.init x1 y1 angle1 x2 y2 angle2 w2 h2 plen)).y2 ∧
    (update_trail cosd sind d1 d2 (LineTrail.init x1 y1 angle1 x2 y2 angle2 w1 h1 plen)).angle1 =
      (update_trail cosd sind d1 d2 (LineTrail.init x1 y1 angle1 x2 y2 angle2 w2 h2 plen)).angle1 ∧
    (update_trail cosd sind d1 d2 (LineTrail.init x1 y1 angle1 x2 y2 angle2 w1 h1 plen)).angle2 =
      (update_trail cosd sind d1 d2 (LineTrail.init x1 y1 angle1 x2 y2 angle2 w2 h2 plen)).angle2 ∧
    (update_trail cosd sind d1 d2 (LineTrail.init x1 y1 angle1 x2 y2 angle2 w1 h1 plen)).color =
      (update_trail cosd sind d1 d2 (LineTrail.init x1 y1 angle1 x2 y2 angle2 w2 h2 plen)).color ∧
    (update_trail cosd sind d1 d2 (LineTrail.init x1 y1 angle1 x2 y2 angle2 w1 h1 plen)).lines =
      (update_trail cosd sind d1 d2 (LineTrail.init x1 y1 angle1 x2 y2 angle2 w2 h2 plen)).lines :=
  ⟨rfl, rfl, rfl, rfl, rfl, rfl, rfl, rfl⟩

/-! ## Claim C3 -/

/-- C3: the claim states that the power branch of the gamma companding is
`v' = 1.055 * v^(1/2.4) - 0.055`.  The code (`code.py` line 149) computes
`pow(1.055 * v, 1/2.4) - 0.055`, with the factor 1.055 inside the power.  At
the linear channel value `v = 1` the claimed formula yields exactly 1, while
the code yields `1.055^(1/2.4) - 0.055 < 1`. -/
theorem compand_power_branch_mismatch :
    compand 1 = (1.055 * 1 : ℝ) ^ ((1 : ℝ) / 2.4) - 0.055 ∧
    compand 1 ≠ 1.055 * (1 : ℝ) ^ ((1 : ℝ) / 2.4) - 0.055 := by
  have hcode : compand 1 = (1.055 : ℝ) ^ ((1 : ℝ) / 2.4) - 0.055 := by
    unfold compand
    rw [if_neg (by norm_num)]
    norm_num
  have hlt : (1.055 : ℝ) ^ ((1 : ℝ) / 2.4) < 1.055 := by
    calc (1.055 : ℝ) ^ ((1 : ℝ) / 2.4) < 1.055 ^ (1 : ℝ) :=
          Real.rpow_lt_rpow_of_exponent_lt (by norm_num) (by norm_num)
    _ = 1.055 := Real.rpow_one _
  refine ⟨by rw [hcode]; norm_num, ?_⟩
  rw [hcode, Real.one_rpow]
  intro hEq
  nlinarith [hlt, hEq]

/-! ## Claim C4 -/

/-- C4: at the input `(L, C, h) = (0, 1/2, 0)` the code returns `(2, 0, 130)`
while the final stage described by the claim (multiply the companded values by
255, clamp, truncate, return `(R, G, B)` with R the first matrix row's
channel) returns `(1, 0, 0)`.  The code multiplies by 25500 (`code.py`
line 152) and `np.flip` (line 153) reverses the channels, so the first
returned component is the third matrix row's channel: the code's 130 comes
from the first row (R) but is returned last. -/
theorem LCh_final_stage_mismatch :
    LCh_to_sRGB 0 (1/2) 0 = (2, 0, 130) ∧
    LCh_to_sRGB_claimed 0 (1/2) 0 = (1, 0, 0) ∧
    LCh_to_sRGB 0 (1/2) 0 ≠ LCh_to_sRGB_claimed 0 (1/2) 0 := by
  have hcode : LCh_to_sRGB 0 (1/2) 0 = (2, 0, 130) := by
    unfold LCh_to_sRGB
    norm_num [Real.cos_zero, Real.sin_zero, compand, pyInt, min_def, max_def]
  have hclaim : LCh_to_sRGB_claimed 0 (1/2) 0 = (1, 0, 0) := by
    unfold LCh_to_sRGB_claimed
    norm_num [Real.cos_zero, Real.sin_zero, compand, pyInt, min_def, max_def]
  refine ⟨hcode, hclaim, ?_⟩
  rw [hcode, hclaim]
  simp

end FruitJamLines
